import Mathlib

/-!
Shallow embedding of `src/client.py` (a Flower federated-learning client).

The repository's own modules `model.py` (`Predictor`, `train`, `test`) and
`dataset.py` (`prepare_dataset`, which builds torch DataLoaders) are not part
of the sources; they are modelled abstractly below (see `Libs` and `batchify`).
Numeric tensors are modelled exactly: a tensor is a shape together with a flat
list of values.  Python exceptions are modelled with `Except`; an escaping
exception from `set_parameters`/`fit`/`evaluate` carries the client state at
the moment the exception left the method, so that non-atomicity of failed
calls is visible.  In particular a failing strict load keeps its partial
writes, as the real `load_state_dict` copies each provided, shape-matching
entry into the live model before raising.
-/

namespace FLClient

/-- Flower `Scalar` values (config entries, metric values). -/
inductive Scalar where
  | int : Int → Scalar
  | float : Rat → Scalar
  | str : String → Scalar
  | bool : Bool → Scalar
deriving DecidableEq, Repr

/-- A numeric array (numpy array / torch tensor): a shape and flat data.
`torch.Tensor(v)` on a numpy array preserves shape and values, so it is the
identity on this model. -/
structure Tensor where
  shape : List Nat
  data : List Int
deriving DecidableEq, Repr

/-- A model is identified with its `state_dict`: an ordered dict from
parameter names to tensors (`collections.OrderedDict`). -/
abbrev Model := List (String × Tensor)

/-- A torch DataLoader, seen as its sequence of batches; `len(loader)` is the
number of batches.  A batch is a list of examples. -/
abbrev DataLoader := List (List Int)

/-- `torch.device`: cpu, or a numbered cuda device. -/
inductive Device where
  | cpu : Device
  | cuda : Nat → Device
deriving DecidableEq, Repr

/-- Python exceptions that the embedded code can raise. -/
inductive PyError where
  | keyError : String → PyError
  | runtimeError : String → PyError
  | valueError : String → PyError
  | indexError : String → PyError
deriving DecidableEq, Repr

/-- A Flower config / metrics dict. -/
abbrev Config := List (String × Scalar)

/-- `config[k]` on a Python dict: the value, or a KeyError. -/
def Config.getItem (cfg : Config) (k : String) : Except PyError Scalar :=
  match cfg.lookup k with
  | some v => Except.ok v
  | none => Except.error (PyError.keyError k)

/-- The state of `torch.optim.SGD(self.model.parameters(), lr=lr,
momentum=momentum)` as far as this code constructs it. -/
structure SGD where
  lr : Scalar
  momentum : Scalar
deriving DecidableEq, Repr

/-- Modelled from the spec: the repository modules `model.py` and `dataset.py`
are missing from the sources.  The spec describes `train` only as running the
optimization loop, `test` as running inference and producing a loss and a mean
loss, and `Predictor()` as a model that is randomly initialised at first; GPU
availability is an environment fact.  They are therefore kept abstract here as
a bundle of functions the client code calls into. -/
structure Libs where
  train : Model → DataLoader → SGD → Scalar → Device → Model
  test : Model → DataLoader → Device → Rat × Rat
  predictorInit : Model
  cudaAvailable : Bool

/-- Model keys that the loaded dict does not provide (torch: missing keys). -/
def missingKeys (m : Model) (sd : List (String × Tensor)) : List String :=
  (m.map Prod.fst).filter (fun k => (sd.lookup k).isNone)

/-- Loaded-dict keys the model does not have (torch: unexpected keys). -/
def unexpectedKeys (m : Model) (sd : List (String × Tensor)) : List String :=
  (sd.map Prod.fst).filter (fun k => !((m.map Prod.fst).contains k))

/-- Model entries whose provided tensor has a different shape (torch: size
mismatch). -/
def mismatchedEntries (m : Model) (sd : List (String × Tensor)) : Model :=
  m.filter (fun kv =>
    match sd.lookup kv.fst with
    | some t => !(t.shape == kv.snd.shape)
    | none => false)

/-- The model state the load leaves behind: torch copies each provided,
shape-matching entry into the live parameter while it traverses the model, so
these writes persist even when the strict check afterwards raises; a missing
or shape-mismatched entry keeps its old value. -/
def partialLoadedModel (m : Model) (sd : List (String × Tensor)) : Model :=
  m.map (fun kv =>
    match sd.lookup kv.fst with
    | some t => if t.shape == kv.snd.shape then (kv.fst, t) else kv
    | none => kv)

/-- `torch.nn.Module.load_state_dict(sd, strict=True)`: copy every provided,
shape-matching entry into the model, then raise if some model key was missing
from `sd`, some `sd` key was unexpected, or a tensor shape mismatched.  The
failure is not transactional: the error carries the partially overwritten
model the failed call leaves behind. -/
def load_state_dict_strict (m : Model) (sd : List (String × Tensor)) :
    Except (PyError × Model) Model :=
  if (missingKeys m sd).isEmpty && (unexpectedKeys m sd).isEmpty
      && (mismatchedEntries m sd).isEmpty then
    Except.ok (partialLoadedModel m sd)
  else
    Except.error (PyError.runtimeError "Error in loading state_dict",
      partialLoadedModel m sd)

/-- The `FlowerClient` object: its fields as set in `__init__`. -/
structure FlowerClient where
  cid : String
  trainloader : DataLoader
  valloader : DataLoader
  model : Model
  device : Device
deriving DecidableEq, Repr

/-- `FlowerClient.__init__(cid, trainloader, valloader)`: store the loaders,
build a fresh `Predictor()`, pick cuda when available else cpu. -/
def FlowerClient.init (libs : Libs) (cid : String)
    (trainloader valloader : DataLoader) : FlowerClient :=
  { cid := cid
    trainloader := trainloader
    valloader := valloader
    model := libs.predictorInit
    device := if libs.cudaAvailable then Device.cuda 0 else Device.cpu }

/-- `FlowerClient.set_parameters`: zip the state-dict keys with the received
arrays, build an OrderedDict of tensors and load it with `strict=True`.  When
the load raises, the model already holds the load's partial writes. -/
def FlowerClient.set_parameters (c : FlowerClient) (parameters : List Tensor) :
    Except (PyError × FlowerClient) FlowerClient :=
  let params_dict := List.zip (c.model.map Prod.fst) parameters
  match load_state_dict_strict c.model params_dict with
  | Except.ok m => Except.ok { c with model := m }
  | Except.error (e, m) => Except.error (e, { c with model := m })

/-- `FlowerClient.get_parameters`: the state-dict values as a list of numpy
arrays (`.cpu().numpy()` is the identity on this model). -/
def FlowerClient.get_parameters (c : FlowerClient) (_config : Config) :
    List Tensor :=
  c.model.map Prod.snd

/-- A Flower metrics dict. -/
abbrev Metrics := List (String × Scalar)

/-- `FlowerClient.fit(parameters, config)`: set_parameters, read `lr`,
`momentum`, `local_epochs` from the config, build the SGD optimiser, train,
and return `(get_parameters({}), len(trainloader), {})`.  An escaping
exception carries the client state at the point it was raised. -/
def FlowerClient.fit (libs : Libs) (c : FlowerClient)
    (parameters : List Tensor) (config : Config) :
    Except (PyError × FlowerClient) (FlowerClient × (List Tensor × Nat × Metrics)) :=
  match c.set_parameters parameters with
  | Except.error pr => Except.error pr
  | Except.ok c1 =>
    match Config.getItem config "lr" with
    | Except.error e => Except.error (e, c1)
    | Except.ok lr =>
      match Config.getItem config "momentum" with
      | Except.error e => Except.error (e, c1)
      | Except.ok momentum =>
        match Config.getItem config "local_epochs" with
        | Except.error e => Except.error (e, c1)
        | Except.ok epochs =>
          let optim : SGD := { lr := lr, momentum := momentum }
          let m2 := libs.train c1.model c1.trainloader optim epochs c1.device
          let c2 := { c1 with model := m2 }
          Except.ok (c2, (c2.get_parameters [], c2.trainloader.length, ([] : Metrics)))

/-- `FlowerClient.evaluate(parameters, config)`: set_parameters, run `test`,
return `(float(loss), len(valloader), dict with cid and mean_loss)`. -/
def FlowerClient.evaluate (libs : Libs) (c : FlowerClient)
    (parameters : List Tensor) (_config : Config) :
    Except (PyError × FlowerClient) (FlowerClient × (Rat × Nat × Metrics)) :=
  match c.set_parameters parameters with
  | Except.error pr => Except.error pr
  | Except.ok c1 =>
    let r := libs.test c1.model c1.valloader c1.device
    Except.ok (c1, (r.fst, c1.valloader.length,
      [("cid", Scalar.str c1.cid), ("mean_loss", Scalar.float r.snd)]))

/-- Decimal digits of a Python int literal (no sign). -/
def parseDigits (cs : List Char) : Option Nat :=
  if cs = [] then none
  else if cs.all Char.isDigit then
    some (cs.foldl (fun n c => 10 * n + (c.toNat - 48)) 0)
  else none

/-- Modelled Python built-in `int(s)` on a string: an optional sign followed
by decimal digits; otherwise a ValueError. -/
def pyInt (s : String) : Except PyError Int :=
  match s.data with
  | List.cons c rest =>
    if c = '-' then
      match parseDigits rest with
      | some n => Except.ok (-(n : Int))
      | none => Except.error (PyError.valueError s)
    else if c = '+' then
      match parseDigits rest with
      | some n => Except.ok (n : Int)
      | none => Except.error (PyError.valueError s)
    else
      match parseDigits s.data with
      | some n => Except.ok (n : Int)
      | none => Except.error (PyError.valueError s)
  | List.nil => Except.error (PyError.valueError s)

/-- Modelled Python list indexing `xs[i]`: negative indices count from the
end; out of range raises IndexError. -/
def pyIndex (xs : List α) (i : Int) : Except PyError α :=
  let j : Int := if i < 0 then i + xs.length else i
  if h : 0 ≤ j ∧ j < xs.length then
    Except.ok (xs.get ⟨j.toNat, by omega⟩)
  else
    Except.error (PyError.indexError "list index out of range")

/-- `generate_client_fn(trainloaders, valloaders)`: the returned `client_fn`
builds `FlowerClient(cid, trainloaders[int(cid)], valloaders[int(cid)])`. -/
def generate_client_fn (libs : Libs) (trainloaders valloaders : List DataLoader) :
    String → Except PyError FlowerClient :=
  fun cid =>
    match pyInt cid with
    | Except.error e => Except.error e
    | Except.ok i =>
      match pyIndex trainloaders i with
      | Except.error e => Except.error e
      | Except.ok tl =>
        match pyIndex valloaders i with
        | Except.error e => Except.error e
        | Except.ok vl => Except.ok (FlowerClient.init libs cid tl vl)

/-- Modelled from the spec: `dataset.py` (the DataLoader construction in
`prepare_dataset`) is missing from the sources.  A torch DataLoader with
batch size `b` and the default `drop_last=False` splits the dataset into
consecutive batches of `b` examples, the last batch possibly shorter. -/
def batchify (b : Nat) (xs : List α) : List (List α) :=
  match xs with
  | [] => []
  | y :: ys =>
    if _hb : b = 0 then []
    else (y :: ys).take b :: batchify b ((y :: ys).drop b)
termination_by xs.length
decreasing_by
  simp only [List.length_drop, List.length_cons]
  omega

/-- Number of examples a loader holds: the total over its batches. -/
def numExamples (dl : DataLoader) : Nat :=
  (dl.map List.length).sum

/-- Spec-side composition for the refinement claim about `evaluate`, following
the spec's words: load `parameters` into the local model, then call
`test(model, valloader, device)` directly and return its two outputs. -/
def evaluate_direct (libs : Libs) (c : FlowerClient) (parameters : List Tensor) :
    Except PyError (Rat × Rat) :=
  match c.set_parameters parameters with
  | Except.error pr => Except.error pr.fst
  | Except.ok c1 => Except.ok (libs.test c1.model c1.valloader c1.device)

/-- Spec-side composition for the refinement claim about `fit`, following the
spec's words: load `parameters`, call `train` with an SGD optimiser built from
the config's lr and momentum for the config's local_epochs, and return the
resulting model parameters. -/
def fit_direct (libs : Libs) (c : FlowerClient) (parameters : List Tensor)
    (config : Config) : Except PyError (List Tensor) :=
  match c.set_parameters parameters with
  | Except.error pr => Except.error pr.fst
  | Except.ok c1 =>
    match Config.getItem config "lr" with
    | Except.error e => Except.error e
    | Except.ok lr =>
      match Config.getItem config "momentum" with
      | Except.error e => Except.error e
      | Except.ok momentum =>
        match Config.getItem config "local_epochs" with
        | Except.error e => Except.error e
        | Except.ok epochs =>
          Except.ok ((libs.train c1.model c1.trainloader
            { lr := lr, momentum := momentum } epochs c1.device).map Prod.snd)

/-- The fields of a client other than its model: the ones `__init__` stores
and no method reassigns. -/
def FlowerClient.frame (c : FlowerClient) : String × DataLoader × DataLoader × Device :=
  (c.cid, c.trainloader, c.valloader, c.device)

/-- The client state after a method call, whether it returned or raised. -/
def clientOf {α : Type} : Except (PyError × FlowerClient) (FlowerClient × α) → FlowerClient
  | Except.ok pr => pr.fst
  | Except.error pr => pr.snd

/-- The client state after `set_parameters`, whether it returned or raised
(a raising load leaves its partial writes in the carried client). -/
def clientOfSet : Except (PyError × FlowerClient) FlowerClient → FlowerClient
  | Except.ok c1 => c1
  | Except.error pr => pr.snd

/-- The value returned by a method call, or the exception it raised,
forgetting the client state. -/
def evalOutcome {α : Type} : Except (PyError × FlowerClient) (FlowerClient × α) → Except PyError α
  | Except.ok pr => Except.ok pr.snd
  | Except.error pr => Except.error pr.fst

/-- Did the call return normally? -/
def isOk {ε α : Type} : Except ε α → Bool
  | Except.ok _ => true
  | Except.error _ => false

/-! Concrete objects used to instantiate theorems with hypotheses and to
exhibit counterexamples. -/

/-- A trivial instantiation of the abstract library bundle. -/
def libs0 : Libs :=
  { train := fun m _ _ _ _ => m
    test := fun _ _ _ => (0, 0)
    predictorInit := []
    cudaAvailable := false }

/-- A concrete two-parameter model. -/
def m0 : Model := [("w", ⟨[2], [0, 0]⟩), ("b", ⟨[1], [0]⟩)]

/-- A concrete client holding `m0`. -/
def c0 : FlowerClient :=
  { cid := "0"
    trainloader := [[1, 2], [3]]
    valloader := [[4], [5]]
    model := m0
    device := Device.cpu }

/-- Parameters matching `m0` in count and shapes. -/
def p0 : List Tensor := [⟨[2], [1, 2]⟩, ⟨[1], [3]⟩]

/-- The client `c0` after loading `p0`. -/
def c0Loaded : FlowerClient :=
  { c0 with model := [("w", ⟨[2], [1, 2]⟩), ("b", ⟨[1], [3]⟩)] }

/-- A config carrying the three hyperparameters `fit` reads. -/
def cfg0 : Config :=
  [("lr", Scalar.float 1), ("momentum", Scalar.float 0), ("local_epochs", Scalar.int 1)]

/-- More arrays than `m0` has parameters, the zipped prefix matching. -/
def pExtra : List Tensor := [⟨[2], [1, 2]⟩, ⟨[1], [3]⟩, ⟨[5], [9, 9, 9, 9, 9]⟩]

/-- A one-element list of loaders. -/
def tls0 : List DataLoader := [[[1], [2]]]

/-- A one-element list of loaders. -/
def vls0 : List DataLoader := [[[3]]]

/-- Fewer arrays than `m0` has parameters. -/
def pShort : List Tensor := [⟨[2], [1, 2]⟩]

/-- A config lacking the `momentum` and `local_epochs` keys. -/
def cfgBad : Config := [("lr", Scalar.float 1)]

/-- Same structure as `c0` but different parameter data. -/
def c7Other : FlowerClient :=
  { c0 with model := [("w", ⟨[2], [7, 7]⟩), ("b", ⟨[1], [9]⟩)] }

/-- Same state as `c0` except for the client id. -/
def c7Cid : FlowerClient := { c0 with cid := "1" }

/-- A client whose loaders batch small datasets with batch size 2. -/
def cB : FlowerClient :=
  { c0 with trainloader := batchify 2 [1, 2, 3], valloader := batchify 2 [4, 5] }

/-- The client `cB` after loading `p0`. -/
def cBLoaded : FlowerClient :=
  { cB with model := [("w", ⟨[2], [1, 2]⟩), ("b", ⟨[1], [3]⟩)] }

/-- Decidable equality of `Except` values with decidable components. -/
instance instExceptDecEq {ε α : Type} [DecidableEq ε] [DecidableEq α] :
    DecidableEq (Except ε α) := fun x y =>
  match x, y with
  | Except.ok a, Except.ok b =>
    if h : a = b then Decidable.isTrue (by rw [h])
    else Decidable.isFalse (by intro he; cases he; exact h rfl)
  | Except.error a, Except.error b =>
    if h : a = b then Decidable.isTrue (by rw [h])
    else Decidable.isFalse (by intro he; cases he; exact h rfl)
  | Except.ok _, Except.error _ => Decidable.isFalse (by intro he; cases he)
  | Except.error _, Except.ok _ => Decidable.isFalse (by intro he; cases he)

end FLClient

namespace FLClient

/-! Helper lemmas about `List.lookup` over a zip of distinct keys. -/

theorem lookup_zip_get {β : Type} (keys : List String) (params : List β)
    (hnd : keys.Nodup) (j : Nat) (hj : j < keys.length) (hj2 : j < params.length) :
    (keys.zip params).lookup (keys.get ⟨j, hj⟩) = some (params.get ⟨j, hj2⟩) := by
  induction keys generalizing params j with
  | nil => simp at hj
  | cons k ks ih =>
    cases params with
    | nil => simp at hj2
    | cons p ps =>
      cases j with
      | zero => simp [List.lookup]
      | succ j =>
        have hj' : j < ks.length := by simpa using hj
        have hne : ks.get ⟨j, hj'⟩ ≠ k := fun he =>
          (List.nodup_cons.mp hnd).1 (he ▸ List.get_mem ks j hj')
        simp only [List.zip_cons_cons, List.get_cons_succ]
        simp only [List.lookup, beq_eq_false_iff_ne.mpr hne]
        exact ih ps (List.nodup_cons.mp hnd).2 j hj' (by simpa using hj2)

theorem lookup_zip_none {β : Type} (keys : List String) (params : List β)
    (hnd : keys.Nodup) (j : Nat) (hj : j < keys.length) (hj2 : params.length ≤ j) :
    (keys.zip params).lookup (keys.get ⟨j, hj⟩) = none := by
  induction keys generalizing params j with
  | nil => simp at hj
  | cons k ks ih =>
    cases params with
    | nil => simp [List.lookup]
    | cons p ps =>
      cases j with
      | zero => simp at hj2
      | succ j =>
        have hj' : j < ks.length := by simpa using hj
        have hne : ks.get ⟨j, hj'⟩ ≠ k := fun he =>
          (List.nodup_cons.mp hnd).1 (he ▸ List.get_mem ks j hj')
        simp only [List.zip_cons_cons, List.get_cons_succ]
        simp only [List.lookup, beq_eq_false_iff_ne.mpr hne]
        exact ih ps (List.nodup_cons.mp hnd).2 j hj' (by simpa using hj2)

theorem lookup_zip_isSome {β : Type} (keys : List String) (params : List β)
    (k : String) (hk : k ∈ keys) (hlen : keys.length ≤ params.length) :
    ((keys.zip params).lookup k).isSome = true := by
  induction keys generalizing params with
  | nil => simp at hk
  | cons k0 ks ih =>
    cases params with
    | nil => simp at hlen
    | cons p ps =>
      by_cases he : k = k0
      · subst he; simp [List.lookup]
      · rcases List.mem_cons.mp hk with h | h
        · exact absurd h he
        · simp only [List.zip_cons_cons, List.lookup, beq_eq_false_iff_ne.mpr he]
          exact ih ps h (by simpa using hlen)

/-! Characterisation of `load_state_dict_strict` on the dict that
`set_parameters` builds: a zip of the model keys with the received arrays. -/

theorem missingKeys_zip_nil (m : Model) (params : List Tensor)
    (hlen : m.length ≤ params.length) :
    missingKeys m ((m.map Prod.fst).zip params) = [] := by
  simp only [missingKeys]
  apply List.filter_eq_nil_iff.mpr
  intro k hk
  have hs := lookup_zip_isSome (m.map Prod.fst) params k hk (by simpa using hlen)
  rcases Option.isSome_iff_exists.mp hs with ⟨v, hv⟩
  simp [hv]

theorem unexpectedKeys_zip_nil (m : Model) (params : List Tensor) :
    unexpectedKeys m ((m.map Prod.fst).zip params) = [] := by
  simp only [unexpectedKeys]
  apply List.filter_eq_nil_iff.mpr
  intro k hk
  rcases List.mem_map.mp hk with ⟨⟨k1, t⟩, hmem, rfl⟩
  have hk1 : k1 ∈ m.map Prod.fst := (List.of_mem_zip hmem).1
  simp [List.contains, List.elem_iff.mpr hk1]
  rcases List.mem_map.mp hk1 with ⟨⟨k2, t2⟩, hm2, he⟩
  subst he
  exact ⟨t2, hm2⟩

theorem mismatchedEntries_zip_nil (m : Model) (params : List Tensor)
    (hnd : (m.map Prod.fst).Nodup)
    (hsh : List.Forall₂ (fun (kv : String × Tensor) (t : Tensor) =>
      t.shape = kv.snd.shape) m params) :
    mismatchedEntries m ((m.map Prod.fst).zip params) = [] := by
  have hlen := hsh.length_eq
  simp only [mismatchedEntries]
  apply List.filter_eq_nil_iff.mpr
  intro kv hkv
  rcases List.mem_iff_get.mp hkv with ⟨⟨j, hj⟩, rfl⟩
  have hl := lookup_zip_get (m.map Prod.fst) params hnd j (by simpa using hj) (by omega)
  have hkey : (m.map Prod.fst).get ⟨j, by simpa using hj⟩ = (m.get ⟨j, hj⟩).fst := by
    simp
  rw [hkey] at hl
  rw [hl]
  have hs := (List.forall₂_iff_get.mp hsh).2 j hj (by omega)
  have hs2 : params[j].shape = m[j].snd.shape := by simpa using hs
  simp [hs2]

/-- Abbreviation for the shape-compatibility hypothesis of a received
parameter list: pointwise, each array has the shape of the model entry at the
same position (which also forces equal lengths). -/
def ShapeCompat (m : Model) (params : List Tensor) : Prop :=
  List.Forall₂ (fun (kv : String × Tensor) (t : Tensor) => t.shape = kv.snd.shape) m params

theorem partialLoadedModel_zip (m : Model) (params : List Tensor)
    (hnd : (m.map Prod.fst).Nodup) (hsh : ShapeCompat m params) :
    partialLoadedModel m ((m.map Prod.fst).zip params) = (m.map Prod.fst).zip params := by
  have hlen := hsh.length_eq
  apply List.ext_get
  · simp [partialLoadedModel, List.length_zip]; omega
  · intro n h1 h2
    have hn : n < m.length := by simpa [partialLoadedModel] using h1
    have hl := lookup_zip_get (m.map Prod.fst) params hnd n (by simpa using hn) (by omega)
    have hkey : (m.map Prod.fst).get ⟨n, by simpa using hn⟩ = (m.get ⟨n, hn⟩).fst := by
      simp
    rw [hkey] at hl
    have hs := (List.forall₂_iff_get.mp hsh).2 n hn (by omega)
    have hs2 : params[n].shape = m[n].snd.shape := by simpa using hs
    simp only [partialLoadedModel, List.get_eq_getElem, List.getElem_map, List.getElem_zip]
    rw [show (m[n].fst) = (m.get ⟨n, hn⟩).fst from rfl] at *
    rw [hl]
    simp [hs2]

theorem load_zip_ok (m : Model) (params : List Tensor)
    (hnd : (m.map Prod.fst).Nodup) (hsh : ShapeCompat m params) :
    load_state_dict_strict m ((m.map Prod.fst).zip params) =
      Except.ok ((m.map Prod.fst).zip params) := by
  have hlen := hsh.length_eq
  unfold load_state_dict_strict
  rw [missingKeys_zip_nil m params (by omega), unexpectedKeys_zip_nil,
    mismatchedEntries_zip_nil m params hnd hsh, partialLoadedModel_zip m params hnd hsh]
  simp

theorem set_parameters_ok (c : FlowerClient) (params : List Tensor)
    (hnd : (c.model.map Prod.fst).Nodup) (hsh : ShapeCompat c.model params) :
    c.set_parameters params =
      Except.ok { c with model := (c.model.map Prod.fst).zip params } := by
  simp only [FlowerClient.set_parameters]
  rw [load_zip_ok c.model params hnd hsh]

theorem load_zip_short (m : Model) (params : List Tensor)
    (hnd : (m.map Prod.fst).Nodup) (hlt : params.length < m.length) :
    load_state_dict_strict m ((m.map Prod.fst).zip params) =
      Except.error (PyError.runtimeError "Error in loading state_dict",
        partialLoadedModel m ((m.map Prod.fst).zip params)) := by
  have hjm : params.length < (m.map Prod.fst).length := by simpa using hlt
  have hmem : (m.map Prod.fst).get ⟨params.length, hjm⟩ ∈
      missingKeys m ((m.map Prod.fst).zip params) := by
    simp only [missingKeys]
    apply List.mem_filter.mpr
    refine ⟨List.get_mem _ _ _, ?_⟩
    rw [lookup_zip_none (m.map Prod.fst) params hnd params.length hjm (le_refl _)]
    rfl
  have hne : missingKeys m ((m.map Prod.fst).zip params) ≠ [] := by
    intro h; rw [h] at hmem; simp at hmem
  have hfalse : (missingKeys m ((m.map Prod.fst).zip params)).isEmpty = false :=
    List.isEmpty_eq_false.mpr hne
  simp [load_state_dict_strict, hfalse]

theorem load_zip_mismatch (m : Model) (params : List Tensor)
    (hnd : (m.map Prod.fst).Nodup) (j : Nat) (hj1 : j < m.length)
    (hj2 : j < params.length)
    (hne : (params.get ⟨j, hj2⟩).shape ≠ ((m.get ⟨j, hj1⟩).snd).shape) :
    load_state_dict_strict m ((m.map Prod.fst).zip params) =
      Except.error (PyError.runtimeError "Error in loading state_dict",
        partialLoadedModel m ((m.map Prod.fst).zip params)) := by
  have hl := lookup_zip_get (m.map Prod.fst) params hnd j (by simpa using hj1) hj2
  have hkey : (m.map Prod.fst).get ⟨j, by simpa using hj1⟩ = (m.get ⟨j, hj1⟩).fst := by
    simp
  rw [hkey] at hl
  have hmem : m.get ⟨j, hj1⟩ ∈ mismatchedEntries m ((m.map Prod.fst).zip params) := by
    simp only [mismatchedEntries]
    apply List.mem_filter.mpr
    refine ⟨List.get_mem _ _ _, ?_⟩
    rw [hl]
    simp
    simpa using hne
  have hnil : mismatchedEntries m ((m.map Prod.fst).zip params) ≠ [] := by
    intro h; rw [h] at hmem; simp at hmem
  have hfalse : (mismatchedEntries m ((m.map Prod.fst).zip params)).isEmpty = false :=
    List.isEmpty_eq_false.mpr hnil
  simp [load_state_dict_strict, hfalse]

theorem set_parameters_short (c : FlowerClient) (params : List Tensor)
    (hnd : (c.model.map Prod.fst).Nodup) (hlt : params.length < c.model.length) :
    c.set_parameters params =
      Except.error (PyError.runtimeError "Error in loading state_dict",
        { c with model :=
            partialLoadedModel c.model ((c.model.map Prod.fst).zip params) }) := by
  simp only [FlowerClient.set_parameters]
  rw [load_zip_short c.model params hnd hlt]

theorem set_parameters_mismatch (c : FlowerClient) (params : List Tensor)
    (hnd : (c.model.map Prod.fst).Nodup) (j : Nat) (hj1 : j < c.model.length)
    (hj2 : j < params.length)
    (hne : (params.get ⟨j, hj2⟩).shape ≠ ((c.model.get ⟨j, hj1⟩).snd).shape) :
    c.set_parameters params =
      Except.error (PyError.runtimeError "Error in loading state_dict",
        { c with model :=
            partialLoadedModel c.model ((c.model.map Prod.fst).zip params) }) := by
  simp only [FlowerClient.set_parameters]
  rw [load_zip_mismatch c.model params hnd j hj1 hj2 hne]

/-- `set_parameters` either succeeds, replacing only the model, or raises
with a client that differs from the original at most in its model (the
load's partial writes). -/
theorem set_parameters_cases (c : FlowerClient) (params : List Tensor) :
    (∃ m, c.set_parameters params = Except.ok { c with model := m }) ∨
    (∃ e m, c.set_parameters params = Except.error (e, { c with model := m })) := by
  simp only [FlowerClient.set_parameters]
  cases load_state_dict_strict c.model ((c.model.map Prod.fst).zip params) with
  | ok m => exact Or.inl ⟨m, rfl⟩
  | error pr =>
    obtain ⟨e, m⟩ := pr
    exact Or.inr ⟨e, m, rfl⟩

theorem set_parameters_ok_frame (c c1 : FlowerClient) (params : List Tensor)
    (hset : c.set_parameters params = Except.ok c1) :
    c1.cid = c.cid ∧ c1.trainloader = c.trainloader ∧
      c1.valloader = c.valloader ∧ c1.device = c.device := by
  rcases set_parameters_cases c params with ⟨m, h⟩ | ⟨e, m, h⟩
  · rw [h] at hset
    injection hset with h2
    rw [← h2]
    exact ⟨rfl, rfl, rfl, rfl⟩
  · rw [h] at hset
    cases hset

/-! Unfolding lemmas for `fit` and `evaluate`. -/

theorem fit_ok_eq (libs : Libs) (c c1 : FlowerClient) (params : List Tensor)
    (config : Config) (lr mo ep : Scalar)
    (hset : c.set_parameters params = Except.ok c1)
    (hlr : config.lookup "lr" = some lr)
    (hmo : config.lookup "momentum" = some mo)
    (hep : config.lookup "local_epochs" = some ep) :
    FlowerClient.fit libs c params config =
      Except.ok
        ({ c1 with model := (libs.train c1.model c1.trainloader
            (SGD.mk lr mo) ep c1.device) },
         ((libs.train c1.model c1.trainloader
            (SGD.mk lr mo) ep c1.device).map Prod.snd,
          c1.trainloader.length, ([] : Metrics))) := by
  simp only [FlowerClient.fit, hset, Config.getItem, hlr, hmo, hep,
    FlowerClient.get_parameters]

theorem fit_set_err (libs : Libs) (c : FlowerClient) (params : List Tensor)
    (config : Config) (e : PyError) (c1 : FlowerClient)
    (hset : c.set_parameters params = Except.error (e, c1)) :
    FlowerClient.fit libs c params config = Except.error (e, c1) := by
  simp only [FlowerClient.fit, hset]

theorem evaluate_ok_eq (libs : Libs) (c c1 : FlowerClient) (params : List Tensor)
    (config : Config) (hset : c.set_parameters params = Except.ok c1) :
    FlowerClient.evaluate libs c params config =
      Except.ok (c1, ((libs.test c1.model c1.valloader c1.device).fst,
        c1.valloader.length,
        [("cid", Scalar.str c1.cid),
         ("mean_loss", Scalar.float (libs.test c1.model c1.valloader c1.device).snd)])) := by
  simp only [FlowerClient.evaluate, hset]

theorem evaluate_set_err (libs : Libs) (c : FlowerClient) (params : List Tensor)
    (config : Config) (e : PyError) (c1 : FlowerClient)
    (hset : c.set_parameters params = Except.error (e, c1)) :
    FlowerClient.evaluate libs c params config = Except.error (e, c1) := by
  simp only [FlowerClient.evaluate, hset]

theorem fit_keyerr (libs : Libs) (c c1 : FlowerClient) (params : List Tensor)
    (config : Config) (hset : c.set_parameters params = Except.ok c1)
    (hmiss : config.lookup "lr" = none ∨ config.lookup "momentum" = none ∨
      config.lookup "local_epochs" = none) :
    ∃ k, FlowerClient.fit libs c params config =
      Except.error (PyError.keyError k, c1) := by
  cases hlr : config.lookup "lr" with
  | none =>
    exact ⟨"lr", by simp only [FlowerClient.fit, hset, Config.getItem, hlr]⟩
  | some lr =>
    cases hmo : config.lookup "momentum" with
    | none =>
      exact ⟨"momentum", by simp only [FlowerClient.fit, hset, Config.getItem, hlr, hmo]⟩
    | some mo =>
      cases hep : config.lookup "local_epochs" with
      | none =>
        exact ⟨"local_epochs",
          by simp only [FlowerClient.fit, hset, Config.getItem, hlr, hmo, hep]⟩
      | some ep =>
        exfalso
        rcases hmiss with h | h | h
        · rw [h] at hlr; cases hlr
        · rw [h] at hmo; cases hmo
        · rw [h] at hep; cases hep

/-! Frame preservation. -/

theorem set_parameters_frame (c : FlowerClient) (params : List Tensor) :
    (clientOfSet (c.set_parameters params)).frame = c.frame := by
  rcases set_parameters_cases c params with ⟨m, h⟩ | ⟨e, m, h⟩ <;>
    simp [h, clientOfSet, FlowerClient.frame]

theorem fit_frame (libs : Libs) (c : FlowerClient) (params : List Tensor)
    (config : Config) :
    (clientOf (FlowerClient.fit libs c params config)).frame = c.frame := by
  rcases set_parameters_cases c params with ⟨m, h⟩ | ⟨e, m, h⟩
  · simp only [FlowerClient.fit, h]
    cases Config.getItem config "lr" with
    | error e1 => simp [clientOf, FlowerClient.frame]
    | ok lr =>
      cases Config.getItem config "momentum" with
      | error e2 => simp [clientOf, FlowerClient.frame]
      | ok mo =>
        cases Config.getItem config "local_epochs" with
        | error e3 => simp [clientOf, FlowerClient.frame]
        | ok ep => simp [clientOf, FlowerClient.frame]
  · rw [fit_set_err libs c params config e { c with model := m } h]
    simp [clientOf, FlowerClient.frame]

theorem evaluate_frame (libs : Libs) (c : FlowerClient) (params : List Tensor)
    (config : Config) :
    (clientOf (FlowerClient.evaluate libs c params config)).frame = c.frame := by
  rcases set_parameters_cases c params with ⟨m, h⟩ | ⟨e, m, h⟩
  · rw [evaluate_ok_eq libs c _ params config h]
    simp [clientOf, FlowerClient.frame]
  · rw [evaluate_set_err libs c params config e { c with model := m } h]
    simp [clientOf, FlowerClient.frame]

/-! Congruence of the load with respect to the state-dict structure (keys and
shapes): the data held before the load does not influence the outcome. -/

theorem missingKeys_congr (m1 m2 : Model) (sd : List (String × Tensor))
    (hk : m1.map Prod.fst = m2.map Prod.fst) :
    missingKeys m1 sd = missingKeys m2 sd := by
  simp only [missingKeys, hk]

theorem unexpectedKeys_congr (m1 m2 : Model) (sd : List (String × Tensor))
    (hk : m1.map Prod.fst = m2.map Prod.fst) :
    unexpectedKeys m1 sd = unexpectedKeys m2 sd := by
  simp only [unexpectedKeys, hk]

theorem mismatchedEntries_isEmpty_congr :
    ∀ (m1 m2 : Model) (sd : List (String × Tensor)),
      m1.map Prod.fst = m2.map Prod.fst →
      m1.map (fun kv => kv.snd.shape) = m2.map (fun kv => kv.snd.shape) →
      (mismatchedEntries m1 sd).isEmpty = (mismatchedEntries m2 sd).isEmpty := by
  intro m1
  induction m1 with
  | nil =>
    intro m2 sd hk _
    cases m2 with
    | nil => rfl
    | cons kv2 m2 => simp at hk
  | cons kv1 m1 ih =>
    intro m2 sd hk hs
    cases m2 with
    | nil => simp at hk
    | cons kv2 m2 =>
      simp only [List.map_cons, List.cons.injEq] at hk hs
      have hpred :
          (match sd.lookup kv1.fst with
            | some t => !(t.shape == kv1.snd.shape)
            | none => false)
          = (match sd.lookup kv2.fst with
            | some t => !(t.shape == kv2.snd.shape)
            | none => false) := by
        rw [hk.1, hs.1]
      simp only [mismatchedEntries, List.filter_cons]
      rw [hpred]
      by_cases hp : (match sd.lookup kv2.fst with
          | some t => !(t.shape == kv2.snd.shape)
          | none => false) = true
      · rw [if_pos hp, if_pos hp]
        rfl
      · rw [if_neg hp, if_neg hp]
        exact ih m2 sd hk.2 hs.2

theorem partialLoadedModel_congr :
    ∀ (m1 m2 : Model) (sd : List (String × Tensor)),
      m1.map Prod.fst = m2.map Prod.fst →
      m1.map (fun kv => kv.snd.shape) = m2.map (fun kv => kv.snd.shape) →
      (missingKeys m1 sd).isEmpty = true →
      (mismatchedEntries m1 sd).isEmpty = true →
      partialLoadedModel m1 sd = partialLoadedModel m2 sd := by
  intro m1
  induction m1 with
  | nil =>
    intro m2 sd hk _ _ _
    cases m2 with
    | nil => rfl
    | cons kv2 m2 => simp at hk
  | cons kv1 m1 ih =>
    intro m2 sd hk hs hmiss hmis
    cases m2 with
    | nil => simp at hk
    | cons kv2 m2 =>
      simp only [List.map_cons, List.cons.injEq] at hk hs
      have hm : missingKeys (kv1 :: m1) sd = [] := List.isEmpty_eq_true.mp hmiss
      simp only [missingKeys, List.map_cons, List.filter_cons] at hm
      by_cases hc : (sd.lookup kv1.fst).isNone = true
      · rw [if_pos hc] at hm
        cases hm
      · rw [if_neg hc] at hm
        have hsome : (sd.lookup kv1.fst).isSome = true := by
          cases hlk : sd.lookup kv1.fst with
          | none => rw [hlk] at hc; simp at hc
          | some v => simp
        rcases Option.isSome_iff_exists.mp hsome with ⟨t, ht⟩
        have hmm : mismatchedEntries (kv1 :: m1) sd = [] := List.isEmpty_eq_true.mp hmis
        simp only [mismatchedEntries, List.filter_cons] at hmm
        have hpredf : (match sd.lookup kv1.fst with
            | some u => !(u.shape == kv1.snd.shape)
            | none => false) = false := by
          by_cases hp : (match sd.lookup kv1.fst with
              | some u => !(u.shape == kv1.snd.shape)
              | none => false) = true
          · rw [if_pos hp] at hmm
            cases hmm
          · exact Bool.eq_false_iff.mpr hp
        have hbeq : (t.shape == kv1.snd.shape) = true := by
          rw [ht] at hpredf
          simpa using hpredf
        have hmiss1 : (missingKeys m1 sd).isEmpty = true := by
          simp only [missingKeys]
          rw [hm]
          rfl
        have hmis1 : (mismatchedEntries m1 sd).isEmpty = true := by
          rw [if_neg (by rw [hpredf]; simp)] at hmm
          simp only [mismatchedEntries]
          rw [hmm]
          rfl
        have ht2 : sd.lookup kv2.fst = some t := by rw [← hk.1]; exact ht
        have hbeq2 : (t.shape == kv2.snd.shape) = true := by rw [← hs.1]; exact hbeq
        have hstep1 : partialLoadedModel (kv1 :: m1) sd =
            (kv1.fst, t) :: partialLoadedModel m1 sd := by
          simp only [partialLoadedModel, List.map_cons]
          rw [ht]
          simp [hbeq]
        have hstep2 : partialLoadedModel (kv2 :: m2) sd =
            (kv2.fst, t) :: partialLoadedModel m2 sd := by
          simp only [partialLoadedModel, List.map_cons]
          rw [ht2]
          simp [hbeq2]
        rw [hstep1, hstep2, ih m2 sd hk.2 hs.2 hmiss1 hmis1, hk.1]

theorem load_state_dict_congr (m1 m2 : Model) (sd : List (String × Tensor))
    (hk : m1.map Prod.fst = m2.map Prod.fst)
    (hs : m1.map (fun kv => kv.snd.shape) = m2.map (fun kv => kv.snd.shape)) :
    (∃ M, load_state_dict_strict m1 sd = Except.ok M ∧
      load_state_dict_strict m2 sd = Except.ok M) ∨
    (∃ r1 r2, load_state_dict_strict m1 sd =
        Except.error (PyError.runtimeError "Error in loading state_dict", r1) ∧
      load_state_dict_strict m2 sd =
        Except.error (PyError.runtimeError "Error in loading state_dict", r2)) := by
  unfold load_state_dict_strict
  rw [missingKeys_congr m1 m2 sd hk, unexpectedKeys_congr m1 m2 sd hk,
    mismatchedEntries_isEmpty_congr m1 m2 sd hk hs]
  by_cases hcond : ((missingKeys m2 sd).isEmpty && (unexpectedKeys m2 sd).isEmpty
      && (mismatchedEntries m2 sd).isEmpty) = true
  · have hc := hcond
    simp only [Bool.and_eq_true] at hc
    have hmiss1 : (missingKeys m1 sd).isEmpty = true := by
      rw [missingKeys_congr m1 m2 sd hk]
      exact hc.1.1
    have hmis1 : (mismatchedEntries m1 sd).isEmpty = true := by
      rw [mismatchedEntries_isEmpty_congr m1 m2 sd hk hs]
      exact hc.2
    rw [if_pos hcond, if_pos hcond,
      partialLoadedModel_congr m1 m2 sd hk hs hmiss1 hmis1]
    exact Or.inl ⟨partialLoadedModel m2 sd, rfl, rfl⟩
  · rw [if_neg hcond, if_neg hcond]
    exact Or.inr ⟨partialLoadedModel m1 sd, partialLoadedModel m2 sd, rfl, rfl⟩

theorem set_parameters_congr (c1 c2 : FlowerClient) (params : List Tensor)
    (hk : c1.model.map Prod.fst = c2.model.map Prod.fst)
    (hs : c1.model.map (fun kv => kv.snd.shape) = c2.model.map (fun kv => kv.snd.shape)) :
    (∃ e c1r c2r, c1.set_parameters params = Except.error (e, c1r) ∧
      c2.set_parameters params = Except.error (e, c2r)) ∨
    (∃ M, c1.set_parameters params = Except.ok { c1 with model := M } ∧
      c2.set_parameters params = Except.ok { c2 with model := M }) := by
  simp only [FlowerClient.set_parameters]
  rw [hk]
  rcases load_state_dict_congr c1.model c2.model ((c2.model.map Prod.fst).zip params)
      hk hs with ⟨M, h1, h2⟩ | ⟨r1, r2, h1, h2⟩
  · rw [h1, h2]
    exact Or.inr ⟨M, rfl, rfl⟩
  · rw [h1, h2]
    exact Or.inl ⟨PyError.runtimeError "Error in loading state_dict",
      { c1 with model := r1 }, { c2 with model := r2 }, rfl, rfl⟩

/-! Lemmas about the modelled DataLoader batching, for the batch-count versus
example-count claim. -/

theorem batchify_sum_aux {α : Type} (b : Nat) (hb : 1 ≤ b) :
    ∀ (n : Nat) (xs : List α), xs.length ≤ n →
      ((batchify b xs).map List.length).sum = xs.length := by
  intro n
  induction n with
  | zero =>
    intro xs h
    cases xs with
    | nil => simp [batchify]
    | cons x rest => simp at h
  | succ n ih =>
    intro xs h
    cases xs with
    | nil => simp [batchify]
    | cons x rest =>
      rw [batchify]
      rw [dif_neg (by omega)]
      simp only [List.map_cons, List.sum_cons]
      have hdrop : ((x :: rest).drop b).length ≤ n := by
        simp only [List.length_drop, List.length_cons]
        simp only [List.length_cons] at h
        omega
      rw [ih _ hdrop]
      simp only [List.length_take, List.length_drop, List.length_cons]
      omega

theorem batchify_sum {α : Type} (b : Nat) (hb : 1 ≤ b) (xs : List α) :
    ((batchify b xs).map List.length).sum = xs.length :=
  batchify_sum_aux b hb xs.length xs (le_refl _)

theorem batchify_length_le_aux {α : Type} (b : Nat) (hb : 2 ≤ b) :
    ∀ (n : Nat) (xs : List α), xs.length ≤ n →
      (batchify b xs).length ≤ (xs.length + 1) / 2 := by
  intro n
  induction n with
  | zero =>
    intro xs h
    cases xs with
    | nil => simp [batchify]
    | cons x rest => simp at h
  | succ n ih =>
    intro xs h
    cases xs with
    | nil => simp [batchify]
    | cons x rest =>
      rw [batchify]
      rw [dif_neg (by omega)]
      simp only [List.length_cons]
      have hdrop : ((x :: rest).drop b).length ≤ n := by
        simp only [List.length_drop, List.length_cons]
        simp only [List.length_cons] at h
        omega
      have hrec := ih _ hdrop
      simp only [List.length_drop, List.length_cons] at hrec
      simp only [List.length_cons] at h
      omega

theorem batchify_length_lt {α : Type} (b : Nat) (hb : 2 ≤ b) (xs : List α)
    (hx : 2 ≤ xs.length) :
    (batchify b xs).length < xs.length := by
  have hle := batchify_length_le_aux b hb xs.length xs (le_refl _)
  omega

end FLClient

namespace FLClient

/-! The claims. -/

/-- C1: for every parameter list and config (with the three hyperparameter
keys present and a loadable parameter list), `evaluate` returns exactly the
loss and mean_loss obtained by loading `parameters` and calling
`test(model, valloader, device)` directly, and `fit` returns exactly the
parameters obtained by loading `parameters` and calling `train` with an SGD
optimiser built from the config. -/
theorem c1_fit_evaluate_refine (libs : Libs) (c c1 : FlowerClient)
    (parameters : List Tensor) (config : Config) (lr mo ep : Scalar)
    (hset : c.set_parameters parameters = Except.ok c1)
    (hlr : config.lookup "lr" = some lr)
    (hmo : config.lookup "momentum" = some mo)
    (hep : config.lookup "local_epochs" = some ep) :
    (∃ loss ml, evaluate_direct libs c parameters = Except.ok (loss, ml) ∧
      FlowerClient.evaluate libs c parameters config =
        Except.ok (c1, (loss, c1.valloader.length,
          [("cid", Scalar.str c1.cid), ("mean_loss", Scalar.float ml)])))
    ∧ (∃ ps c2 n mets, fit_direct libs c parameters config = Except.ok ps ∧
      FlowerClient.fit libs c parameters config = Except.ok (c2, (ps, n, mets))) := by
  constructor
  · refine ⟨(libs.test c1.model c1.valloader c1.device).fst,
      (libs.test c1.model c1.valloader c1.device).snd, ?_, ?_⟩
    · simp only [evaluate_direct, hset]
    · rw [evaluate_ok_eq libs c c1 parameters config hset]
  · refine ⟨(libs.train c1.model c1.trainloader (SGD.mk lr mo) ep c1.device).map Prod.snd,
      { c1 with model := (libs.train c1.model c1.trainloader (SGD.mk lr mo) ep c1.device) },
      c1.trainloader.length, ([] : Metrics), ?_, ?_⟩
    · simp only [fit_direct, hset, Config.getItem, hlr, hmo, hep]
    · rw [fit_ok_eq libs c c1 parameters config lr mo ep hset hlr hmo hep]

/-- Witness for C1 at a concrete client, parameter list and config. -/
theorem c1_fit_evaluate_refine_witness :
    (∃ loss ml, evaluate_direct libs0 c0 p0 = Except.ok (loss, ml) ∧
      FlowerClient.evaluate libs0 c0 p0 cfg0 =
        Except.ok (c0Loaded, (loss, c0Loaded.valloader.length,
          [("cid", Scalar.str c0Loaded.cid), ("mean_loss", Scalar.float ml)])))
    ∧ (∃ ps c2 n mets, fit_direct libs0 c0 p0 cfg0 = Except.ok ps ∧
      FlowerClient.fit libs0 c0 p0 cfg0 = Except.ok (c2, (ps, n, mets))) :=
  c1_fit_evaluate_refine libs0 c0 c0Loaded p0 cfg0 (Scalar.float 1) (Scalar.float 0)
    (Scalar.int 1) rfl rfl rfl rfl

/-- C2: with the three hyperparameter keys present and a loadable parameter
list, `fit` loads the weights, trains, and returns exactly the triple of the
updated model parameters (via `get_parameters`), `len(trainloader)` and an
empty metrics dict. -/
theorem c2_fit_pass_through (libs : Libs) (c c1 : FlowerClient)
    (parameters : List Tensor) (config : Config) (lr mo ep : Scalar)
    (hset : c.set_parameters parameters = Except.ok c1)
    (hlr : config.lookup "lr" = some lr)
    (hmo : config.lookup "momentum" = some mo)
    (hep : config.lookup "local_epochs" = some ep) :
    FlowerClient.fit libs c parameters config =
      Except.ok
        ({ c1 with model := (libs.train c1.model c1.trainloader (SGD.mk lr mo) ep c1.device) },
         (FlowerClient.get_parameters
            { c1 with model := (libs.train c1.model c1.trainloader (SGD.mk lr mo) ep c1.device) } [],
          c.trainloader.length, ([] : Metrics))) := by
  have hfr := set_parameters_ok_frame c c1 parameters hset
  rw [fit_ok_eq libs c c1 parameters config lr mo ep hset hlr hmo hep]
  simp [FlowerClient.get_parameters, hfr.2.1]

/-- Witness for C2 at a concrete client, parameter list and config. -/
theorem c2_fit_pass_through_witness :
    FlowerClient.fit libs0 c0 p0 cfg0 = Except.ok (c0Loaded, (p0, 2, ([] : Metrics))) := by
  rw [c2_fit_pass_through libs0 c0 c0Loaded p0 cfg0 (Scalar.float 1) (Scalar.float 0)
    (Scalar.int 1) rfl rfl rfl rfl]
  decide

/-- C3 counterexample: with one train loader and one validation loader, the
identifier string "1" does not map to a client at all; `client_fn` raises an
IndexError instead (the claim quantifies over every identifier string). -/
theorem c3_counterexample :
    generate_client_fn libs0 tls0 vls0 "1" =
      Except.error (PyError.indexError "list index out of range") := rfl

/-- C3 as amended: for every identifier string that Python `int` parses and
that indexes both loader lists, `client_fn(cid)` returns a `FlowerClient`
whose cid field equals `cid` and whose loaders are
`trainloaders[int(cid)]` and `valloaders[int(cid)]`. -/
theorem c3_client_fn_amended (libs : Libs) (trainloaders valloaders : List DataLoader)
    (cid : String) (i : Int) (tl vl : DataLoader)
    (hi : pyInt cid = Except.ok i)
    (ht : pyIndex trainloaders i = Except.ok tl)
    (hv : pyIndex valloaders i = Except.ok vl) :
    ∃ fc, generate_client_fn libs trainloaders valloaders cid = Except.ok fc ∧
      fc.cid = cid ∧ fc.trainloader = tl ∧ fc.valloader = vl := by
  refine ⟨FlowerClient.init libs cid tl vl, ?_, rfl, rfl, rfl⟩
  simp only [generate_client_fn, hi, ht, hv]

/-- Witness for the amended C3 at identifier "0". -/
theorem c3_client_fn_amended_witness :
    ∃ fc, generate_client_fn libs0 tls0 vls0 "0" = Except.ok fc ∧
      fc.cid = "0" ∧ fc.trainloader = [[1], [2]] ∧ fc.valloader = [[3]] :=
  c3_client_fn_amended libs0 tls0 vls0 "0" 0 [[1], [2]] [[3]] rfl rfl rfl

/-- C4 counterexample: a parameter list with MORE arrays than the model has
entries is silently accepted — `zip` drops the extra arrays, so `strict=True`
sees all keys present and `set_parameters` returns normally, against the
claim that every count mismatch raises. -/
theorem c4_counterexample :
    pExtra.length ≠ c0.model.length ∧ isOk (c0.set_parameters pExtra) = true := by
  decide

/-- C4 as amended: when the received list has FEWER arrays than the model has
parameters, or some zipped array's shape mismatches, `set_parameters` raises
and the exception propagates uncaught through `fit` and `evaluate`.  The
failed load is not transactional: the escaping exception leaves the client
with the partially overwritten model — every provided, shape-matching entry
already copied — while cid, loaders and device are untouched. -/
theorem c4_set_parameters_raises_amended (libs : Libs) (c : FlowerClient)
    (parameters : List Tensor) (config : Config)
    (hnd : (c.model.map Prod.fst).Nodup)
    (hbad : parameters.length < c.model.length ∨
      ∃ (j : Nat) (h1 : j < c.model.length) (h2 : j < parameters.length),
        (parameters.get ⟨j, h2⟩).shape ≠ ((c.model.get ⟨j, h1⟩).snd).shape) :
    ∃ e c1, c.set_parameters parameters = Except.error (e, c1) ∧
      FlowerClient.fit libs c parameters config = Except.error (e, c1) ∧
      FlowerClient.evaluate libs c parameters config = Except.error (e, c1) ∧
      c1.model = partialLoadedModel c.model ((c.model.map Prod.fst).zip parameters) ∧
      c1.frame = c.frame := by
  have herr : c.set_parameters parameters =
      Except.error (PyError.runtimeError "Error in loading state_dict",
        { c with model :=
            partialLoadedModel c.model ((c.model.map Prod.fst).zip parameters) }) := by
    rcases hbad with h | ⟨j, h1, h2, hne⟩
    · exact set_parameters_short c parameters hnd h
    · exact set_parameters_mismatch c parameters hnd j h1 h2 hne
  exact ⟨_, _, herr, fit_set_err libs c parameters config _ _ herr,
    evaluate_set_err libs c parameters config _ _ herr, rfl, rfl⟩

/-- Witness for the amended C4 with a too-short parameter list: "w" is
already overwritten when the error escapes, "b" keeps its old value. -/
theorem c4_set_parameters_raises_amended_witness :
    ∃ e c1, c0.set_parameters pShort = Except.error (e, c1) ∧
      FlowerClient.fit libs0 c0 pShort cfg0 = Except.error (e, c1) ∧
      FlowerClient.evaluate libs0 c0 pShort cfg0 = Except.error (e, c1) ∧
      c1.model = partialLoadedModel c0.model ((c0.model.map Prod.fst).zip pShort) ∧
      c1.frame = c0.frame :=
  c4_set_parameters_raises_amended libs0 c0 pShort cfg0 (by decide) (Or.inl (by decide))

/-- C5: `set_parameters`, `fit` and `evaluate` leave `cid`, `trainloader`,
`valloader` and `device` unchanged, whether they return or raise; only the
model may change. -/
theorem c5_frame_preservation (libs : Libs) (c : FlowerClient)
    (parameters : List Tensor) (config : Config) :
    (clientOfSet (c.set_parameters parameters)).frame = c.frame
    ∧ (clientOf (FlowerClient.fit libs c parameters config)).frame = c.frame
    ∧ (clientOf (FlowerClient.evaluate libs c parameters config)).frame = c.frame :=
  ⟨set_parameters_frame c parameters, fit_frame libs c parameters config,
    evaluate_frame libs c parameters config⟩

end FLClient

namespace FLClient

/-- C6: for a loadable parameter list, `evaluate` loads the parameters, runs
`test`, and returns the triple of the loss, `len(valloader)`, and a metrics
dict with exactly the keys "cid" (this client's id) and "mean_loss". -/
theorem c6_evaluate_contract (libs : Libs) (c c1 : FlowerClient)
    (parameters : List Tensor) (config : Config)
    (hset : c.set_parameters parameters = Except.ok c1) :
    FlowerClient.evaluate libs c parameters config =
      Except.ok (c1, ((libs.test c1.model c.valloader c.device).fst,
        c.valloader.length,
        [("cid", Scalar.str c.cid),
         ("mean_loss", Scalar.float (libs.test c1.model c.valloader c.device).snd)])) := by
  have hfr := set_parameters_ok_frame c c1 parameters hset
  rw [evaluate_ok_eq libs c c1 parameters config hset, hfr.1, hfr.2.2.1, hfr.2.2.2]

/-- Witness for C6 at a concrete client and parameter list. -/
theorem c6_evaluate_contract_witness :
    FlowerClient.evaluate libs0 c0 p0 cfg0 =
      Except.ok (c0Loaded, (0, 2,
        [("cid", Scalar.str "0"), ("mean_loss", Scalar.float 0)])) := by
  rw [c6_evaluate_contract libs0 c0 c0Loaded p0 cfg0 rfl]
  decide

/-- C7 counterexample: two clients with identical model, validation data and
device, receiving the same parameters and config, return different triples
when their client ids differ — the metrics dict carries the cid. -/
theorem c7_counterexample :
    c0.model = c7Cid.model ∧ c0.valloader = c7Cid.valloader ∧
    c0.device = c7Cid.device ∧
    evalOutcome (FlowerClient.evaluate libs0 c0 p0 cfg0) ≠
      evalOutcome (FlowerClient.evaluate libs0 c7Cid p0 cfg0) := by
  decide

/-- C7 as amended: `evaluate` is deterministic once the two clients also
share cid and device: equal state-dict structure (keys and shapes, data may
differ), equal validation data, cid and device, and the same parameters and
config give identical (loss, count, metrics) outcomes. -/
theorem c7_evaluate_deterministic_amended (libs : Libs) (c1 c2 : FlowerClient)
    (parameters : List Tensor) (config : Config)
    (hcid : c1.cid = c2.cid) (hval : c1.valloader = c2.valloader)
    (hdev : c1.device = c2.device)
    (hk : c1.model.map Prod.fst = c2.model.map Prod.fst)
    (hs : c1.model.map (fun kv => kv.snd.shape) = c2.model.map (fun kv => kv.snd.shape)) :
    evalOutcome (FlowerClient.evaluate libs c1 parameters config) =
      evalOutcome (FlowerClient.evaluate libs c2 parameters config) := by
  rcases set_parameters_congr c1 c2 parameters hk hs with ⟨e, c1r, c2r, h1, h2⟩ | ⟨M, h1, h2⟩
  · rw [evaluate_set_err libs c1 parameters config e c1r h1,
      evaluate_set_err libs c2 parameters config e c2r h2]
    exact rfl
  · rw [evaluate_ok_eq libs c1 _ parameters config h1,
      evaluate_ok_eq libs c2 _ parameters config h2]
    simp [evalOutcome, hcid, hval, hdev]

/-- Witness for the amended C7: same structure, different prior weights. -/
theorem c7_evaluate_deterministic_amended_witness :
    evalOutcome (FlowerClient.evaluate libs0 c0 p0 cfg0) =
      evalOutcome (FlowerClient.evaluate libs0 c7Other p0 cfg0) :=
  c7_evaluate_deterministic_amended libs0 c0 c7Other p0 cfg0 rfl rfl rfl rfl rfl

/-- C8: round trip — for a parameter list matching the model's state_dict in
count and shapes (with distinct keys, as in a dict), `set_parameters`
followed by `get_parameters` returns the input list exactly. -/
theorem c8_roundtrip (c : FlowerClient) (parameters : List Tensor)
    (config : Config)
    (hnd : (c.model.map Prod.fst).Nodup) (hsh : ShapeCompat c.model parameters) :
    ∃ c1, c.set_parameters parameters = Except.ok c1 ∧
      FlowerClient.get_parameters c1 config = parameters := by
  refine ⟨_, set_parameters_ok c parameters hnd hsh, ?_⟩
  simp only [FlowerClient.get_parameters]
  exact List.map_snd_zip _ _ (by rw [List.length_map]; exact hsh.length_eq.ge)

/-- Witness for C8 at a concrete client and parameter list. -/
theorem c8_roundtrip_witness :
    ∃ c1, c0.set_parameters p0 = Except.ok c1 ∧
      FlowerClient.get_parameters c1 cfg0 = p0 :=
  c8_roundtrip c0 p0 cfg0 (by decide)
    (List.Forall₂.cons rfl (List.Forall₂.cons rfl List.Forall₂.nil))

/-- C9 counterexample: with batch size 2 (greater than 1) and the non-empty
one-example dataset, the number of batches EQUALS the number of examples
(both are 1), against the claim that they always differ. -/
theorem c9_counterexample :
    2 > 1 ∧ ([(1 : Int)] ≠ ([] : List Int)) ∧
    (batchify 2 [(1 : Int)]).length = numExamples (batchify 2 [(1 : Int)]) := by
  refine ⟨by decide, by decide, ?_⟩
  simp [batchify, numExamples]

/-- C9 as amended: the second element returned by `fit` and `evaluate` is the
batch count `len(trainloader)` / `len(valloader)`; for batch size at least 2
and a dataset of at least two examples the batch count is strictly smaller
than the example count. -/
theorem c9_batches_not_examples_amended (libs : Libs) (c c1 : FlowerClient)
    (parameters : List Tensor) (config : Config) (lr mo ep : Scalar) (b : Nat)
    (xs ys : List Int)
    (htl : c.trainloader = batchify b xs) (hvl : c.valloader = batchify b ys)
    (hset : c.set_parameters parameters = Except.ok c1)
    (hlr : config.lookup "lr" = some lr)
    (hmo : config.lookup "momentum" = some mo)
    (hep : config.lookup "local_epochs" = some ep)
    (hb : 2 ≤ b) (hx : 2 ≤ xs.length) (hy : 2 ≤ ys.length) :
    (∃ c2 ps mets, FlowerClient.fit libs c parameters config =
        Except.ok (c2, (ps, c.trainloader.length, mets)))
    ∧ (∃ c3 loss mets, FlowerClient.evaluate libs c parameters config =
        Except.ok (c3, (loss, c.valloader.length, mets)))
    ∧ numExamples c.trainloader = xs.length
    ∧ c.trainloader.length < xs.length
    ∧ numExamples c.valloader = ys.length
    ∧ c.valloader.length < ys.length := by
  have hfr := set_parameters_ok_frame c c1 parameters hset
  refine ⟨?_, ?_, ?_, ?_, ?_, ?_⟩
  · refine ⟨{ c1 with model := (libs.train c1.model c1.trainloader (SGD.mk lr mo) ep c1.device) },
      (libs.train c1.model c1.trainloader (SGD.mk lr mo) ep c1.device).map Prod.snd,
      ([] : Metrics), ?_⟩
    rw [fit_ok_eq libs c c1 parameters config lr mo ep hset hlr hmo hep, hfr.2.1]
  · refine ⟨c1, (libs.test c1.model c1.valloader c1.device).fst,
      [("cid", Scalar.str c1.cid),
       ("mean_loss", Scalar.float (libs.test c1.model c1.valloader c1.device).snd)], ?_⟩
    rw [evaluate_ok_eq libs c c1 parameters config hset, hfr.2.2.1]
  · rw [htl]; exact batchify_sum b (by omega) xs
  · rw [htl]; exact batchify_length_lt b hb xs hx
  · rw [hvl]; exact batchify_sum b (by omega) ys
  · rw [hvl]; exact batchify_length_lt b hb ys hy

/-- Witness for the amended C9 with batch size 2 over three and two
examples. -/
theorem c9_batches_not_examples_amended_witness :
    (∃ c2 ps mets, FlowerClient.fit libs0 cB p0 cfg0 =
        Except.ok (c2, (ps, cB.trainloader.length, mets)))
    ∧ (∃ c3 loss mets, FlowerClient.evaluate libs0 cB p0 cfg0 =
        Except.ok (c3, (loss, cB.valloader.length, mets)))
    ∧ numExamples cB.trainloader = 3
    ∧ cB.trainloader.length < 3
    ∧ numExamples cB.valloader = 2
    ∧ cB.valloader.length < 2 :=
  c9_batches_not_examples_amended libs0 cB cBLoaded p0 cfg0 (Scalar.float 1)
    (Scalar.float 0) (Scalar.int 1) 2 [1, 2, 3] [4, 5] rfl rfl rfl rfl rfl rfl
    (by decide) (by decide) (by decide)

/-- C10: `fit` is not atomic on error — with a loadable parameter list and a
config missing one of "lr", "momentum", "local_epochs", `fit` raises KeyError
only after the model has been overwritten with the received parameters: the
escaping error carries the client whose model now holds exactly the received
arrays. -/
theorem c10_fit_not_atomic (libs : Libs) (c : FlowerClient)
    (parameters : List Tensor) (config : Config)
    (hnd : (c.model.map Prod.fst).Nodup) (hsh : ShapeCompat c.model parameters)
    (hmiss : config.lookup "lr" = none ∨ config.lookup "momentum" = none ∨
      config.lookup "local_epochs" = none) :
    ∃ k, FlowerClient.fit libs c parameters config =
        Except.error (PyError.keyError k,
          { c with model := (c.model.map Prod.fst).zip parameters })
      ∧ FlowerClient.get_parameters
          { c with model := (c.model.map Prod.fst).zip parameters } [] = parameters := by
  have hset := set_parameters_ok c parameters hnd hsh
  rcases fit_keyerr libs c _ parameters config hset hmiss with ⟨k, hk⟩
  refine ⟨k, hk, ?_⟩
  simp only [FlowerClient.get_parameters]
  exact List.map_snd_zip _ _ (by rw [List.length_map]; exact hsh.length_eq.ge)

/-- Witness for C10 with a config that lacks "momentum". -/
theorem c10_fit_not_atomic_witness :
    ∃ k, FlowerClient.fit libs0 c0 p0 cfgBad =
        Except.error (PyError.keyError k,
          { c0 with model := (c0.model.map Prod.fst).zip p0 })
      ∧ FlowerClient.get_parameters
          { c0 with model := (c0.model.map Prod.fst).zip p0 } [] = p0 :=
  c10_fit_not_atomic libs0 c0 p0 cfgBad (by decide)
    (List.Forall₂.cons rfl (List.Forall₂.cons rfl List.Forall₂.nil))
    (Or.inr (Or.inl rfl))

end FLClient
